import Mathlib

/-!
Shallow embedding of the Voice Assistant Hub core: the multi-provider
dispatch layer (`src/server/providers/llm.ts`, `stt.ts`, `tts.ts`), the
chat orchestrator (`src/server/routers.ts`), the persistence operations
(`src/server/db.ts`) and the client-side recording / voice-call state
machines (`VoiceRecorder`, `VoiceCallMode`).

JavaScript semantics that matter here are made explicit:
`x || d` on strings and numbers treats `""`, `0`, `null` and `undefined`
as falsy (`jsOrString`, `jsOrNat`, `jsOrRat`, `jsFalsy`), and
`String.prototype.toLowerCase` on the ASCII provider identifiers is
`jsLower`.  Database rows are lists of records; network calls appear as
oracle parameters (the orchestrator is parameterized by the outcome the
provider call would produce).
-/

namespace VoiceHub

/-- JS `x || d` for an optional string: `undefined` and `""` fall back to `d`. -/
def jsOrString (x : Option String) (d : String) : String :=
  match x with
  | none => d
  | some s => if s = "" then d else s

/-- JS `x || d` for an optional number: `undefined` and `0` fall back to `d`. -/
def jsOrNat (x : Option Nat) (d : Nat) : Nat :=
  match x with
  | none => d
  | some v => if v = 0 then d else v

/-- JS `x || d` for an optional rational: `undefined` and `0` fall back to `d`. -/
def jsOrRat (x : Option ℚ) (d : ℚ) : ℚ :=
  match x with
  | none => d
  | some v => if v = 0 then d else v

/-- JS `!x` for an optional string (`undefined` and `""` are falsy). -/
def jsFalsy (x : Option String) : Bool :=
  match x with
  | none => true
  | some s => s == ""

/-- ASCII lowercasing of one character, as `toLowerCase` acts on the
ASCII provider identifiers this system uses. -/
def lowerChar (c : Char) : Char :=
  if 65 ≤ c.toNat ∧ c.toNat ≤ 90 then Char.ofNat (c.toNat + 32) else c

/-- `String.prototype.toLowerCase` on ASCII strings. -/
def jsLower (s : String) : String :=
  ⟨s.data.map lowerChar⟩

/-! ### Data model (`src/drizzle/schema.ts`) -/

/-- A `conversations` row.  `temperature` is the stored integer
(`temperature * 100`, column default 70); timestamps are omitted. -/
structure Conversation where
  id : Nat
  userId : Nat
  title : String
  llmProvider : Option String
  llmModel : Option String
  temperature : Option Nat
  systemPrompt : Option String
  isArchived : Bool
deriving Repr, DecidableEq

/-- A `messages` row. -/
structure Message where
  id : Nat
  conversationId : Nat
  role : String
  content : String
  provider : Option String
  model : Option String
  tokenCount : Option Nat
deriving Repr, DecidableEq

/-- A `providerConfigs` row (stored credential). -/
structure ProviderConfig where
  userId : Nat
  provider : String
  apiKey : String
  isActive : Bool
deriving Repr, DecidableEq

/-- A `usageStats` row (the fields the chat flow writes). -/
structure UsageRow where
  userId : Nat
  provider : String
  requestType : String
  tokenCount : Nat
deriving Repr, DecidableEq

/-- Fields of a message insert (`db.createMessage` assigns the id). -/
structure InsertMessage where
  conversationId : Nat
  role : String
  content : String
  provider : Option String
  model : Option String
  tokenCount : Option Nat
deriving Repr, DecidableEq

/-- The persistent state the claims touch.  `messages` is kept in
creation order, which is the `createdAt`-ascending order
`getConversationMessages` returns. -/
structure Db where
  conversations : List Conversation
  messages : List Message
  providerConfigs : List ProviderConfig
  usage : List UsageRow
  nextMessageId : Nat
deriving Repr, DecidableEq

/-! ### Persistence operations (`src/server/db.ts`) -/

/-- `getConversationById`: `select ... where id = ? limit 1`. -/
def getConversationById (db : Db) (id : Nat) : Option Conversation :=
  db.conversations.find? (fun c => c.id == id)

/-- `getUserConversations`: rows of the user that are not archived
(ordering by `updatedAt` is irrelevant to the claims and omitted). -/
def getUserConversations (db : Db) (userId : Nat) : List Conversation :=
  db.conversations.filter (fun c => c.userId == userId && c.isArchived == false)

/-- `deleteConversation`: archive instead of delete — set `isArchived`
on every row matching the id, touching nothing else. -/
def deleteConversation (db : Db) (id : Nat) : Db :=
  { db with conversations :=
      db.conversations.map (fun c => if c.id == id then { c with isArchived := true } else c) }

/-- `createMessage`: insert a row (auto-increment id); the
`lastMessageAt` touch on the conversation is timestamp bookkeeping and
is omitted. -/
def createMessage (db : Db) (m : InsertMessage) : Nat × Db :=
  let id := db.nextMessageId
  (id, { db with
          messages := db.messages ++
            [{ id := id, conversationId := m.conversationId, role := m.role,
               content := m.content, provider := m.provider, model := m.model,
               tokenCount := m.tokenCount }],
          nextMessageId := id + 1 })

/-- `getConversationMessages`: the conversation's rows in creation order. -/
def getConversationMessages (db : Db) (conversationId : Nat) : List Message :=
  db.messages.filter (fun m => m.conversationId == conversationId)

/-- `deleteMessage`: `delete from messages where id = ?` — by id only. -/
def deleteMessage (db : Db) (id : Nat) : Db :=
  { db with messages := db.messages.filter (fun m => m.id != id) }

/-- `trackUsage`: append a ledger row. -/
def trackUsage (db : Db) (row : UsageRow) : Db :=
  { db with usage := db.usage ++ [row] }

/-- `getUserProviderConfigs`: all credential rows of the user. -/
def getUserProviderConfigs (db : Db) (userId : Nat) : List ProviderConfig :=
  db.providerConfigs.filter (fun p => p.userId == userId)

/-! ### tRPC error signal -/

/-- The error codes the routers throw that the claims mention. -/
inductive TrpcError where
  | notFound
deriving Repr, DecidableEq

/-! ### Message-router delete (`routers.ts`, `messages.delete`) -/

/-- `messages.delete`: the handler takes the caller's user id from the
context but — unlike every sibling endpoint — performs no ownership
lookup: it deletes by id unconditionally and returns `{success: true}`. -/
def messagesDelete (db : Db) (_userId : Nat) (messageId : Nat) :
    Except TrpcError (Bool × Db) :=
  Except.ok (true, deleteMessage db messageId)

/-! ### LLM provider layer (`src/server/providers/llm.ts`) -/

/-- One entry of the prompt array. -/
structure LLMMessage where
  role : String
  content : String
deriving Repr, DecidableEq

/-- The normalized usage shape (`prompt_tokens`/`completion_tokens`/`total_tokens`). -/
structure LLMUsage where
  prompt_tokens : Nat
  completion_tokens : Nat
  total_tokens : Nat
deriving Repr, DecidableEq

/-- The `LLMRequest` interface. -/
structure LLMRequest where
  messages : List LLMMessage
  provider : Option String
  model : Option String
  apiKey : Option String
  temperature : Option ℚ
  maxTokens : Option Nat
deriving Repr, DecidableEq

/-- The normalized `LLMResponse` interface. -/
structure LLMResponse where
  content : String
  usage : Option LLMUsage
  model : Option String
  provider : Option String
deriving Repr, DecidableEq

/-- The part of an OpenRouter / Mistral chat-completions payload the
adapters read: `data.choices[0]?.message?.content`, `data.usage`,
`data.model`.  Both vendors use the normalized field names, so `usage`
already has the `LLMUsage` shape and is passed through. -/
structure ChatCompletionData where
  firstChoiceContent : Option String
  usage : Option LLMUsage
  model : Option String
deriving Repr, DecidableEq

/-- The part of an Anthropic `/v1/messages` payload the adapter reads:
`data.content[0]?.text`, `data.usage?.input_tokens`,
`data.usage?.output_tokens`, `data.model`. -/
structure AnthropicData where
  firstContentText : Option String
  input_tokens : Option Nat
  output_tokens : Option Nat
  model : Option String
deriving Repr, DecidableEq

/-- `callOpenRouter`response normalization: content with fallback text,
vendor `usage` passed through unchanged. -/
def openRouterNormalize (data : ChatCompletionData) : LLMResponse :=
  { content := jsOrString data.firstChoiceContent "No response generated"
    usage := data.usage
    model := data.model
    provider := some "openrouter" }

/-- `callMistral` response normalization: content with fallback text,
vendor `usage` passed through unchanged. -/
def mistralNormalize (data : ChatCompletionData) : LLMResponse :=
  { content := jsOrString data.firstChoiceContent "No response generated"
    usage := data.usage
    model := data.model
    provider := some "mistral" }

/-- `callAnthropic` response normalization: vendor `input_tokens` /
`output_tokens` (each `|| 0`) are remapped to prompt / completion and
summed into the total. -/
def anthropicNormalize (data : AnthropicData) : LLMResponse :=
  { content := jsOrString data.firstContentText "No response generated"
    usage := some
      { prompt_tokens := data.input_tokens.getD 0
        completion_tokens := data.output_tokens.getD 0
        total_tokens := data.input_tokens.getD 0 + data.output_tokens.getD 0 }
    model := data.model
    provider := some "anthropic" }

/-- The JSON body `callAnthropic` dispatches to `/v1/messages`. -/
structure AnthropicHttpBody where
  model : String
  system : String
  messages : List LLMMessage
  temperature : ℚ
  max_tokens : Nat
deriving Repr, DecidableEq

/-- Request assembly inside `callAnthropic`: the first system-role
message (`messages.find`) is pulled out into the `system` field
(`systemMessage?.content || ""`), and the conversational array is the
input with all system-role entries filtered away. -/
def anthropicRequestBody (request : LLMRequest) : AnthropicHttpBody :=
  let systemMessage := request.messages.find? (fun m => m.role == "system")
  let conversationMessages := request.messages.filter (fun m => m.role != "system")
  { model := jsOrString request.model "claude-3-5-sonnet-20241022"
    system := jsOrString (systemMessage.map (fun m => m.content)) ""
    messages := conversationMessages
    temperature := jsOrRat request.temperature 0.7
    max_tokens := jsOrNat request.maxTokens 2000 }

/-- `callAnthropic` up to the network boundary: a missing (or empty,
hence JS-falsy) key throws `ConfigurationError`-style before any fetch;
otherwise the request body is built and dispatched. -/
def callAnthropic (request : LLMRequest) : Except String AnthropicHttpBody :=
  if jsFalsy request.apiKey then Except.error "Anthropic API key is required"
  else Except.ok (anthropicRequestBody request)

/-- The adapter functions `callLLM` can dispatch to (`"claude"` shares
the Anthropic adapter). -/
inductive LLMAdapter where
  | openai
  | openrouter
  | mistral
  | anthropic
deriving Repr, DecidableEq

/-- The `switch (provider.toLowerCase())` table in `callLLM`. -/
def llmAdapterFor (s : String) : Option LLMAdapter :=
  match s with
  | "openai" => some LLMAdapter.openai
  | "openrouter" => some LLMAdapter.openrouter
  | "mistral" => some LLMAdapter.mistral
  | "anthropic" => some LLMAdapter.anthropic
  | "claude" => some LLMAdapter.anthropic
  | _ => none

/-- Adapter resolution in `callLLM`: the lowercased id selects the
adapter; an unknown id throws `Unsupported LLM provider: <provider>`
(original casing) with no vendor call made. -/
def resolveLLMAdapter (provider : String) : Except String LLMAdapter :=
  match llmAdapterFor (jsLower provider) with
  | some a => Except.ok a
  | none => Except.error ("Unsupported LLM provider: " ++ provider)

/-- `callLLM`'s dispatch step: `request.provider || "openai"`, then the
switch. -/
def callLLMDispatch (request : LLMRequest) : Except String LLMAdapter :=
  resolveLLMAdapter (jsOrString request.provider "openai")

/-! ### STT and TTS dispatch (`src/server/providers/stt.ts`, `tts.ts`) -/

/-- The adapter functions `callSTT` can dispatch to (`"openai"` shares
the Whisper adapter). -/
inductive STTAdapter where
  | whisper
  | deepgram
deriving Repr, DecidableEq

/-- The `switch (provider.toLowerCase())` table in `callSTT`. -/
def sttAdapterFor (s : String) : Option STTAdapter :=
  match s with
  | "whisper" => some STTAdapter.whisper
  | "openai" => some STTAdapter.whisper
  | "deepgram" => some STTAdapter.deepgram
  | _ => none

/-- Adapter resolution in `callSTT`. -/
def resolveSTTAdapter (provider : String) : Except String STTAdapter :=
  match sttAdapterFor (jsLower provider) with
  | some a => Except.ok a
  | none => Except.error ("Unsupported STT provider: " ++ provider)

/-- A minimal `STTRequest` (the dispatch step only reads `provider`). -/
structure STTRequest where
  audioUrl : String
  provider : Option String
  language : Option String
  apiKey : Option String
deriving Repr, DecidableEq

/-- `callSTT`'s dispatch step: `request.provider || "whisper"`, then the
switch. -/
def callSTTDispatch (request : STTRequest) : Except String STTAdapter :=
  resolveSTTAdapter (jsOrString request.provider "whisper")

/-- The adapter functions `callTTS` can dispatch to. -/
inductive TTSAdapter where
  | elevenlabs
  | hume
deriving Repr, DecidableEq

/-- The `switch (provider.toLowerCase())` table in `callTTS`. -/
def ttsAdapterFor (s : String) : Option TTSAdapter :=
  match s with
  | "elevenlabs" => some TTSAdapter.elevenlabs
  | "hume" => some TTSAdapter.hume
  | _ => none

/-- Adapter resolution in `callTTS`. -/
def resolveTTSAdapter (provider : String) : Except String TTSAdapter :=
  match ttsAdapterFor (jsLower provider) with
  | some a => Except.ok a
  | none => Except.error ("Unsupported TTS provider: " ++ provider)

/-- A minimal `TTSRequest` (the dispatch step only reads `provider`). -/
structure TTSRequest where
  text : String
  provider : Option String
  voice : Option String
  apiKey : Option String
deriving Repr, DecidableEq

/-- `callTTS`'s dispatch step: `request.provider || "elevenlabs"`, then
the switch. -/
def callTTSDispatch (request : TTSRequest) : Except String TTSAdapter :=
  resolveTTSAdapter (jsOrString request.provider "elevenlabs")

/-! ### Chat orchestrator (`routers.ts`, `chat.send`) -/

/-- The credential lookup at `routers.ts:154`:
`providerConfigs.find(p => p.provider === provider && p.isActive)` —
exact (case-sensitive) string equality on the provider id. -/
def findActiveConfig (configs : List ProviderConfig) (provider : String) :
    Option ProviderConfig :=
  configs.find? (fun p => p.provider == provider && p.isActive)

/-- The default system prompt in `chat.send`. -/
def defaultSystemPrompt : String :=
  "You are a helpful AI assistant with voice capabilities. Provide clear, concise, and helpful responses."

/-- The `LLMRequest` `chat.send` assembles for `callLLM`
(`routers.ts:149-190`): effective provider/model via `||` defaults,
effective temperature `(conversation.temperature || 70) / 100`, the
active credential's key by exact provider match, and the prompt
`[system, ...history, user]`. -/
def chatSendRequest (conversation : Conversation) (history : List Message)
    (configs : List ProviderConfig) (userMessage : String) : LLMRequest :=
  let provider := jsOrString conversation.llmProvider "openai"
  let model := jsOrString conversation.llmModel "gpt-4"
  let temperature : ℚ := (jsOrNat conversation.temperature 70 : ℚ) / 100
  let apiKey := (findActiveConfig configs provider).map (fun p => p.apiKey)
  { messages :=
      { role := "system", content := jsOrString conversation.systemPrompt defaultSystemPrompt } ::
        (history.map (fun m => { role := m.role, content := m.content })) ++
        [{ role := "user", content := userMessage }]
    provider := some provider
    model := some model
    apiKey := apiKey
    temperature := some temperature
    maxTokens := some 2000 }

/-- What `chat.send` returns to the caller. -/
structure ChatSendResult where
  messageId : Nat
  content : String
  tokenCount : Nat
deriving Repr, DecidableEq

/-- `chat.send` (`routers.ts:127-222`).  The provider invocation is an
oracle: `llmCall` maps the assembled request to what the `try` block's
awaited call produced — `Except.ok (content, totalTokens)` on success
(covering both the built-in `invokeLLM` branch and the multi-provider
`callLLM` branch, whose extraction of content and
`usage.total_tokens || 0` happens at the network boundary), or
`Except.error e` when the adapter threw an error with message `e`.  The
`catch` turns the throw into the assistant text
`Error: <e>. Please check your provider configuration.` with token
count 0; the assistant insert and the usage insert run unconditionally
afterwards.  History is read before the user insert, exactly as in the
source. -/
def chatSend (db : Db) (userId : Nat) (conversationId : Nat) (message : String)
    (llmCall : LLMRequest → Except String (String × Nat)) :
    Except TrpcError (ChatSendResult × Db) :=
  match getConversationById db conversationId with
  | none => Except.error TrpcError.notFound
  | some conversation =>
    if conversation.userId ≠ userId then Except.error TrpcError.notFound
    else
      let history := getConversationMessages db conversationId
      let db1 := (createMessage db
        { conversationId := conversationId, role := "user", content := message,
          provider := none, model := none, tokenCount := none }).2
      let configs := getUserProviderConfigs db userId
      let request := chatSendRequest conversation history configs message
      let provider := jsOrString conversation.llmProvider "openai"
      let model := jsOrString conversation.llmModel "gpt-4"
      let outcome :=
        match llmCall request with
        | Except.ok (content, total) => (content, total)
        | Except.error e => ("Error: " ++ e ++ ". Please check your provider configuration.", 0)
      let inserted := createMessage db1
        { conversationId := conversationId, role := "assistant", content := outcome.1,
          provider := some provider, model := some model, tokenCount := some outcome.2 }
      let db3 := trackUsage inserted.2
        { userId := userId, provider := provider, requestType := "text", tokenCount := outcome.2 }
      Except.ok ({ messageId := inserted.1, content := outcome.1, tokenCount := outcome.2 }, db3)

/-! ### Single-shot recorder clip guard (`VoiceRecorder`, `mediaRecorder.onstop`) -/

/-- What the `onstop` handler does with the finalized clip. -/
inductive ClipOutcome where
  | tooLarge
  | tooShort
  | accepted
deriving Repr, DecidableEq

/-- The size checks in `mediaRecorder.onstop`: first
`audioBlob.size > 16 * 1024 * 1024` returns "too large", then
`audioBlob.size < 5000` returns "too short"; only otherwise is the clip
handed to the upload-then-transcribe pipeline.  Both rejections happen
before any network call. -/
def onstopClipCheck (size : Nat) : ClipOutcome :=
  if size > 16 * 1024 * 1024 then ClipOutcome.tooLarge
  else if size < 5000 then ClipOutcome.tooShort
  else ClipOutcome.accepted

/-! ### Voice-call turn controller (`VoiceCallMode.tsx`)

The controller's mutable pieces are the closure variables `isSpeaking`
and `silenceStart` of the VAD interval, the refs `isRecordingRef` and
`mediaRecorderRef` (whose `state` is `"inactive"` or `"recording"`), the
chunk buffer, and the async `processAudio` pipeline.  `stopPending`
models the queued `onstop` handler after `mediaRecorder.stop()`;
`pipelinesInFlight` counts `processAudio` invocations that have started
and not yet finished (each one performs the upload and transcription
calls).  The event alphabet interleaves 100 ms VAD ticks with the
recorder's `onstop` callback, `ondataavailable`, and pipeline
completion. -/

/-- `MediaRecorder.state` as the guard reads it. -/
inductive RecorderState where
  | inactive
  | recording
deriving Repr, DecidableEq

/-- The controller state after `startRecording` succeeded. -/
structure CallState where
  isSpeaking : Bool
  silenceStart : Option Nat
  isRecordingRef : Bool
  recorder : RecorderState
  stopPending : Bool
  hasChunks : Bool
  pipelinesInFlight : Nat
deriving Repr, DecidableEq

/-- The state when the call starts (nothing recorded yet). -/
def initialCallState : CallState :=
  { isSpeaking := false, silenceStart := none, isRecordingRef := false,
    recorder := RecorderState.inactive, stopPending := false,
    hasChunks := false, pipelinesInFlight := 0 }

/-- One VAD interval tick (`VoiceCallMode.tsx:83-113`).  On voice: mark
speaking, and start the recorder iff `!isRecordingRef.current` and the
recorder is `"inactive"` — the guard consults no pipeline flag.  On
silence past 1500 ms: stop the recorder iff `isRecordingRef.current` and
it is `"recording"` (queueing `onstop`). -/
def vadTickStep (hasVoice : Bool) (now : Nat) (s : CallState) : CallState :=
  if hasVoice then
    if !s.isSpeaking then
      let s1 := { s with isSpeaking := true, silenceStart := none }
      if !s1.isRecordingRef && s1.recorder == RecorderState.inactive then
        { s1 with recorder := RecorderState.recording, isRecordingRef := true }
      else s1
    else s
  else
    if s.isSpeaking then
      match s.silenceStart with
      | none => { s with silenceStart := some now }
      | some t0 =>
        if now - t0 > 1500 then
          let s1 := { s with isSpeaking := false, silenceStart := none }
          if s1.isRecordingRef && s1.recorder == RecorderState.recording then
            { s1 with recorder := RecorderState.inactive, isRecordingRef := false,
                      stopPending := true }
          else s1
        else s
    else s

/-- `ondataavailable`: a non-empty chunk arrives while recording. -/
def dataAvailableStep (s : CallState) : CallState :=
  if s.recorder == RecorderState.recording then { s with hasChunks := true } else s

/-- The queued `onstop` handler runs: with no chunks it returns; with
chunks it builds the blob, clears the buffer, and starts `processAudio`
(upload → transcribe → chat → TTS → play). -/
def recorderStoppedStep (s : CallState) : CallState :=
  if s.stopPending then
    if s.hasChunks then
      { s with stopPending := false, hasChunks := false,
               pipelinesInFlight := s.pipelinesInFlight + 1 }
    else { s with stopPending := false }
  else s

/-- A `processAudio` invocation resolves (any of its exit paths). -/
def pipelineFinishedStep (s : CallState) : CallState :=
  { s with pipelinesInFlight := s.pipelinesInFlight - 1 }

/-- The controller's event alphabet. -/
inductive CallEvent where
  | vadTick (hasVoice : Bool) (now : Nat)
  | dataAvailable
  | recorderStopped
  | pipelineFinished
deriving Repr, DecidableEq

/-- One controller step. -/
def callStep (e : CallEvent) (s : CallState) : CallState :=
  match e with
  | CallEvent.vadTick hasVoice now => vadTickStep hasVoice now s
  | CallEvent.dataAvailable => dataAvailableStep s
  | CallEvent.recorderStopped => recorderStoppedStep s
  | CallEvent.pipelineFinished => pipelineFinishedStep s

/-- Run an event interleaving from a state. -/
def runCall (events : List CallEvent) (s : CallState) : CallState :=
  events.foldl (fun s e => callStep e s) s

/-- An interleaving in which the user speaks a first utterance, the
silence timeout stops the recorder and the turn pipeline starts, and
then — with the first pipeline still in flight — the user speaks again:
the VAD tick at t=1800 passes the `!isRecordingRef && inactive` guard
and starts a second recording, whose stop launches a second concurrent
pipeline. -/
def reentryTrace : List CallEvent :=
  [CallEvent.vadTick true 0,
   CallEvent.dataAvailable,
   CallEvent.vadTick false 100,
   CallEvent.vadTick false 1700,
   CallEvent.recorderStopped,
   CallEvent.vadTick true 1800,
   CallEvent.dataAvailable,
   CallEvent.vadTick false 1900,
   CallEvent.vadTick false 3500,
   CallEvent.recorderStopped]

/-! ### Concrete fixtures used to instantiate the theorems -/

/-- A conversation owned by user 1 with stored temperature 73. -/
def sampleConversation : Conversation :=
  { id := 1, userId := 1, title := "chat", llmProvider := none, llmModel := none,
    temperature := some 73, systemPrompt := none, isArchived := false }

/-- A one-conversation database for user 1. -/
def sampleDb : Db :=
  { conversations := [sampleConversation], messages := [], providerConfigs := [],
    usage := [], nextMessageId := 1 }

/-- A conversation owned by user 2. -/
def otherUsersConversation : Conversation :=
  { id := 1, userId := 2, title := "private", llmProvider := none, llmModel := none,
    temperature := none, systemPrompt := none, isArchived := false }

/-- A message inside user 2's conversation. -/
def otherUsersMessage : Message :=
  { id := 5, conversationId := 1, role := "user", content := "secret",
    provider := none, model := none, tokenCount := none }

/-- A database where the only message belongs to user 2's conversation. -/
def crossUserDb : Db :=
  { conversations := [otherUsersConversation], messages := [otherUsersMessage],
    providerConfigs := [], usage := [], nextMessageId := 6 }

/-- A conversation whose stored temperature is the integer 0. -/
def zeroTempConversation : Conversation :=
  { id := 3, userId := 1, title := "cold", llmProvider := none, llmModel := none,
    temperature := some 0, systemPrompt := none, isArchived := false }

/-- A vendor chat-completions payload whose reported total (5) is not
the sum of its prompt (1) and completion (2) counts. -/
def lyingUsageData : ChatCompletionData :=
  { firstChoiceContent := some "hi"
    usage := some { prompt_tokens := 1, completion_tokens := 2, total_tokens := 5 }
    model := some "m" }

/-- An active stored credential whose provider id is lowercase. -/
def anthropicCredential : ProviderConfig :=
  { userId := 1, provider := "anthropic", apiKey := "sk-ant-key", isActive := true }

/-- A conversation whose selected provider differs from the stored
credential's id only in letter case. -/
def anthropicCasedConversation : Conversation :=
  { id := 4, userId := 1, title := "cased", llmProvider := some "Anthropic",
    llmModel := none, temperature := none, systemPrompt := none, isArchived := false }

/-- A request for the Anthropic adapter with a key and a prompt whose
first entry is the system message. -/
def sampleAnthropicRequest : LLMRequest :=
  { messages :=
      [{ role := "system", content := "be brief" },
       { role := "user", content := "hi" },
       { role := "assistant", content := "hello" }]
    provider := some "anthropic", model := none,
    apiKey := some "sk-ant-key", temperature := none, maxTokens := none }

/-- The provider ids `callLLM` accepts (after lowercasing). -/
def llmSupported : List String := ["openai", "openrouter", "mistral", "anthropic", "claude"]

/-- The provider ids `callSTT` accepts (after lowercasing). -/
def sttSupported : List String := ["whisper", "openai", "deepgram"]

/-- The provider ids `callTTS` accepts (after lowercasing). -/
def ttsSupported : List String := ["elevenlabs", "hume"]

/-- An LLM request selecting "MISTRAL" (upper-cased supported id). -/
def mistralCasedRequest : LLMRequest :=
  { messages := [], provider := some "MISTRAL", model := none, apiKey := none,
    temperature := none, maxTokens := none }

/-- An LLM request selecting the unsupported provider "gemini". -/
def geminiRequest : LLMRequest :=
  { messages := [], provider := some "gemini", model := none, apiKey := none,
    temperature := none, maxTokens := none }

/-- An STT request selecting "Deepgram" (mixed-case supported id). -/
def deepgramCasedRequest : STTRequest :=
  { audioUrl := "https://x/audio.webm", provider := some "Deepgram",
    language := none, apiKey := none }

/-- An STT request selecting the unsupported provider "assembly". -/
def assemblyRequest : STTRequest :=
  { audioUrl := "https://x/audio.webm", provider := some "assembly",
    language := none, apiKey := none }

/-- A TTS request selecting "Hume" (mixed-case supported id). -/
def humeCasedRequest : TTSRequest :=
  { text := "hi", provider := some "Hume", voice := none, apiKey := none }

/-- A TTS request selecting the unsupported provider "polly". -/
def pollyRequest : TTSRequest :=
  { text := "hi", provider := some "polly", voice := none, apiKey := none }

/-! ## Helper lemmas -/

theorem toNat_ofNat_valid (n : Nat) (h : n < 55296) : (Char.ofNat n).toNat = n := by
  have hv : n.isValidChar := Or.inl h
  simp [Char.ofNat, hv, Char.ofNatAux, Char.toNat, UInt32.toNat, BitVec.toNat_ofNatLt]

theorem lowerChar_idem (c : Char) : lowerChar (lowerChar c) = lowerChar c := by
  by_cases h : 65 ≤ c.toNat ∧ c.toNat ≤ 90
  · have ht : (Char.ofNat (c.toNat + 32)).toNat = c.toNat + 32 :=
      toNat_ofNat_valid _ (by omega)
    unfold lowerChar
    rw [if_pos h, if_neg (by rw [ht]; omega)]
  · unfold lowerChar
    rw [if_neg h, if_neg h]

theorem jsLower_idem (s : String) : jsLower (jsLower s) = jsLower s := by
  unfold jsLower
  congr 1
  rw [List.map_map]
  exact List.map_congr_left (fun a _ => lowerChar_idem a)

theorem errorText_ne_empty (r : String) : ("Error: " ++ r) ≠ "" := by
  intro h
  have h2 := congrArg String.length h
  simp [String.length_append] at h2
  exact absurd h2.1 (by decide)

theorem errorText_decompose (r : String) : ∃ rest, ("Error: " ++ r) = "Error:" ++ rest :=
  ⟨" " ++ r, by rw [← String.append_assoc]; rfl⟩

/-! ## C7: clip-size guard -/

/-- C7: when a single-shot recording stops, a clip strictly below 5000
bytes is rejected as too short, a clip above 16·1024·1024 bytes is
rejected as too large (both before any upload or transcription call),
and a clip of at least 5000 and at most 16·1024·1024 bytes — in
particular exactly 5000 — is accepted into the upload-then-transcribe
pipeline. -/
theorem clip_size_guard (n : Nat) :
    (n < 5000 → onstopClipCheck n = ClipOutcome.tooShort) ∧
    (16 * 1024 * 1024 < n → onstopClipCheck n = ClipOutcome.tooLarge) ∧
    (5000 ≤ n → n ≤ 16 * 1024 * 1024 → onstopClipCheck n = ClipOutcome.accepted) := by
  unfold onstopClipCheck
  refine ⟨fun h => ?_, fun h => ?_, fun h1 h2 => ?_⟩
  · rw [if_neg (by omega), if_pos h]
  · rw [if_pos (by omega)]
  · rw [if_neg (by omega), if_neg (by omega)]

/-- Witness for C7 at the claim's named sizes: 4999 is rejected as too
short, 5000 is accepted, 16·1024·1024 + 1 is rejected as too large. -/
theorem clip_size_guard_witness :
    onstopClipCheck 4999 = ClipOutcome.tooShort ∧
    onstopClipCheck 5000 = ClipOutcome.accepted ∧
    onstopClipCheck (16 * 1024 * 1024 + 1) = ClipOutcome.tooLarge :=
  ⟨(clip_size_guard 4999).1 (by decide),
   (clip_size_guard 5000).2.2 (by decide) (by decide),
   (clip_size_guard (16 * 1024 * 1024 + 1)).2.1 (by decide)⟩

/-! ## C2: voice-call concurrency guard -/

/-- C2 fails on the code: in the interleaving `reentryTrace`, after the
sixth event (a VAD speech start at t = 1800 while the first turn
pipeline is still in flight) the recorder is recording again, and after
the second silence stop two turn pipelines are in flight concurrently —
the guard at `VoiceCallMode.tsx:91` consults only `isRecordingRef` and
the recorder state, never the processing flag. -/
theorem voiceCall_reentry_two_pipelines :
    (runCall (reentryTrace.take 6) initialCallState).recorder = RecorderState.recording ∧
    (runCall (reentryTrace.take 6) initialCallState).pipelinesInFlight = 1 ∧
    (runCall reentryTrace initialCallState).pipelinesInFlight = 2 := by
  decide

/-! ## C3: messages.delete ownership -/

/-- C3 fails on the code: user 1 deletes message 5, which lives in a
conversation owned by user 2; `messages.delete` performs no ownership
check, returns success, and removes the row — instead of failing with
not-found and deleting nothing. -/
theorem messagesDelete_ignores_ownership :
    otherUsersConversation.userId ≠ 1 ∧
    getConversationById crossUserDb otherUsersMessage.conversationId =
      some otherUsersConversation ∧
    messagesDelete crossUserDb 1 5 =
      Except.ok (true, { crossUserDb with messages := [] }) :=
  ⟨by decide, by decide, rfl⟩

/-! ## C4: effective temperature -/

/-- C4 as stated is false at stored temperature 0: because `chat.send`
computes `(conversation.temperature || 0) / 100` with a JS falsy-or,
a stored 0 falls back to the default 70 and the adapter is invoked with
temperature 0.70, not 0.00. -/
theorem chatSend_temperature_zero_counterexample :
    zeroTempConversation.temperature = some 0 ∧
    (chatSendRequest zeroTempConversation [] [] "hi").temperature = some ((7 : ℚ) / 10) ∧
    (chatSendRequest zeroTempConversation [] [] "hi").temperature ≠ some ((0 : ℚ) / 100) := by
  refine ⟨rfl, ?_, ?_⟩
  · show some ((jsOrNat zeroTempConversation.temperature 70 : ℚ) / 100) = _
    norm_num [zeroTempConversation, jsOrNat]
  · show some ((jsOrNat zeroTempConversation.temperature 70 : ℚ) / 100) ≠ _
    norm_num [zeroTempConversation, jsOrNat]

/-- C4 amended: for every conversation with stored integer temperature
t in 1–200, `chat.send` invokes the LLM adapter with effective
temperature exactly t/100 (storing 73 yields 0.73); a stored 0 is JS
falsy and falls back to the default 70, yielding 0.70 rather than
0.00. -/
theorem chatSend_effective_temperature (conversation : Conversation)
    (history : List Message) (configs : List ProviderConfig) (msg : String) (t : Nat)
    (ht : conversation.temperature = some t) (h1 : 1 ≤ t) (h2 : t ≤ 200) :
    (chatSendRequest conversation history configs msg).temperature =
      some ((t : ℚ) / 100) := by
  show some ((jsOrNat conversation.temperature 70 : ℚ) / 100) = _
  rw [ht]
  simp only [jsOrNat]
  rw [if_neg (by omega)]

/-- Witness for C4 (amended): storing 73 yields effective 73/100 = 0.73. -/
theorem chatSend_effective_temperature_witness :
    sampleConversation.temperature = some 73 ∧
    (chatSendRequest sampleConversation [] [] "Hello").temperature =
      some ((73 : ℚ) / 100) :=
  ⟨rfl, chatSend_effective_temperature sampleConversation [] [] "Hello" 73 rfl
    (by decide) (by decide)⟩

/-! ## C5: usage-total normalization -/

/-- C5 as stated is false: the OpenRouter adapter passes the vendor's
usage object through unchanged, so a vendor response reporting
prompt 1, completion 2, total 5 is normalized with total 5 ≠ 1 + 2. -/
theorem adapter_usage_sum_counterexample :
    ∃ u, (openRouterNormalize lyingUsageData).usage = some u ∧
      u.total_tokens ≠ u.prompt_tokens + u.completion_tokens :=
  ⟨{ prompt_tokens := 1, completion_tokens := 2, total_tokens := 5 }, by decide⟩

/-- C5 amended: the Anthropic adapter always normalizes usage so that
the total equals prompt + completion, while the OpenRouter and Mistral
adapters return the vendor usage object unchanged — for them the
equality holds only when the vendor's reported total already equals the
sum. -/
theorem adapter_usage_normalization (d : AnthropicData) (c c' : ChatCompletionData) :
    (∃ u, (anthropicNormalize d).usage = some u ∧
      u.total_tokens = u.prompt_tokens + u.completion_tokens) ∧
    (openRouterNormalize c).usage = c.usage ∧
    (mistralNormalize c').usage = c'.usage :=
  ⟨⟨_, rfl, rfl⟩, rfl, rfl⟩

/-! ## C6: Anthropic system-message extraction -/

/-- C6: with a (non-falsy) key present, `callAnthropic` dispatches a
conversational array containing no system-role messages, supplies the
`system` field equal to the content of the first system-role message of
the input list (empty string when there is none), and normalizes vendor
input/output token counts into prompt/completion with total equal to
their sum. -/
theorem callAnthropic_system_extraction (request : LLMRequest) (k : String)
    (hk : request.apiKey = some k) (hk2 : k ≠ "") :
    ∃ body, callAnthropic request = Except.ok body ∧
      (∀ m ∈ body.messages, m.role ≠ "system") ∧
      (∀ m, request.messages.find? (fun x => x.role == "system") = some m →
        body.system = m.content) ∧
      (request.messages.find? (fun x => x.role == "system") = none →
        body.system = "") ∧
      (∀ d : AnthropicData, ∃ u, (anthropicNormalize d).usage = some u ∧
        u.prompt_tokens = d.input_tokens.getD 0 ∧
        u.completion_tokens = d.output_tokens.getD 0 ∧
        u.total_tokens = u.prompt_tokens + u.completion_tokens) := by
  refine ⟨anthropicRequestBody request, ?_, ?_, ?_, ?_, fun d => ⟨_, rfl, rfl, rfl, rfl⟩⟩
  · unfold callAnthropic
    rw [hk]
    simp [jsFalsy, hk2]
  · intro m hm
    have h1 : m ∈ request.messages.filter (fun x => x.role != "system") := hm
    have h2 := List.mem_filter.mp h1
    simpa using h2.2
  · intro m hfind
    show jsOrString ((request.messages.find? (fun x => x.role == "system")).map
      (fun x => x.content)) "" = m.content
    rw [hfind]
    unfold jsOrString
    simp only [Option.map_some']
    by_cases hc : m.content = ""
    · rw [if_pos hc, hc]
    · rw [if_neg hc]
  · intro hfind
    show jsOrString ((request.messages.find? (fun x => x.role == "system")).map
      (fun x => x.content)) "" = ""
    rw [hfind]
    rfl

/-- Witness for C6 at a concrete request: the system entry "be brief"
is extracted into the system field and no system-role message is
dispatched. -/
theorem callAnthropic_system_extraction_witness :
    ∃ body, callAnthropic sampleAnthropicRequest = Except.ok body ∧
      body.system = "be brief" ∧
      (∀ m ∈ body.messages, m.role ≠ "system") := by
  obtain ⟨body, hok, hnosys, hsys, -, -⟩ :=
    callAnthropic_system_extraction sampleAnthropicRequest "sk-ant-key" rfl (by decide)
  exact ⟨body, hok, hsys { role := "system", content := "be brief" } (by decide), hnosys⟩

/-! ## C1: orchestrator durability on adapter failure -/

/-- C1: when the invoked LLM call throws (AdapterError or
ConfigurationError, modelled as the oracle returning `Except.error e`)
on a conversation owned by the caller, `chat.send` still persists the
user message, persists exactly one assistant message whose content is a
non-empty string beginning "Error:", records one usage row with
requestType "text", and returns the assistant content and token count
normally instead of propagating the exception. -/
theorem chatSend_adapter_failure_durable (db : Db) (userId conversationId : Nat)
    (message : String) (llmCall : LLMRequest → Except String (String × Nat))
    (conversation : Conversation) (e : String)
    (hconv : getConversationById db conversationId = some conversation)
    (howner : conversation.userId = userId)
    (hthrow : ∀ r, llmCall r = Except.error e) :
    ∃ result db',
      chatSend db userId conversationId message llmCall = Except.ok (result, db') ∧
      db'.messages = db.messages ++
        [{ id := db.nextMessageId, conversationId := conversationId, role := "user",
           content := message, provider := none, model := none, tokenCount := none },
         { id := db.nextMessageId + 1, conversationId := conversationId,
           role := "assistant", content := result.content,
           provider := some (jsOrString conversation.llmProvider "openai"),
           model := some (jsOrString conversation.llmModel "gpt-4"),
           tokenCount := some 0 }] ∧
      result.content ≠ "" ∧
      (∃ rest, result.content = "Error:" ++ rest) ∧
      db'.usage = db.usage ++
        [{ userId := userId, provider := jsOrString conversation.llmProvider "openai",
           requestType := "text", tokenCount := 0 }] ∧
      result.tokenCount = 0 := by
  unfold chatSend
  rw [hconv]
  dsimp only
  rw [if_neg (by simp [howner])]
  simp only [hthrow]
  refine ⟨_, _, rfl, ?_, errorText_ne_empty _, errorText_decompose _, ?_, rfl⟩
  · simp [createMessage, trackUsage]
  · simp [createMessage, trackUsage]

/-- Witness for C1: a concrete send on `sampleDb` with an oracle that
always throws "boom" returns normally with token count 0 and a
non-empty content, and appends exactly the user and assistant rows. -/
theorem chatSend_adapter_failure_durable_witness :
    ∃ result db',
      chatSend sampleDb 1 1 "Hello" (fun _ => Except.error "boom") =
        Except.ok (result, db') ∧
      result.content ≠ "" ∧
      (∃ rest, result.content = "Error:" ++ rest) ∧
      result.tokenCount = 0 ∧
      db'.messages.length = 2 := by
  obtain ⟨result, db', hok, hmsgs, hne, hpre, husage, htok⟩ :=
    chatSend_adapter_failure_durable sampleDb 1 1 "Hello"
      (fun _ => Except.error "boom") sampleConversation "boom" rfl rfl (fun _ => rfl)
  refine ⟨result, db', hok, hne, hpre, htok, ?_⟩
  rw [hmsgs]
  rfl

/-! ## C8: dispatcher resolution (helpers, then the claim) -/

theorem llmAdapterFor_mem (s : String) (h : s ∈ llmSupported) :
    ∃ a, llmAdapterFor s = some a := by
  simp only [llmSupported, List.mem_cons, List.not_mem_nil, or_false] at h
  rcases h with rfl | rfl | rfl | rfl | rfl <;> exact ⟨_, rfl⟩

theorem llmAdapterFor_not_mem (s : String) (h : s ∉ llmSupported) :
    llmAdapterFor s = none := by
  unfold llmAdapterFor
  split
  all_goals simp_all [llmSupported]

theorem sttAdapterFor_mem (s : String) (h : s ∈ sttSupported) :
    ∃ a, sttAdapterFor s = some a := by
  simp only [sttSupported, List.mem_cons, List.not_mem_nil, or_false] at h
  rcases h with rfl | rfl | rfl <;> exact ⟨_, rfl⟩

theorem sttAdapterFor_not_mem (s : String) (h : s ∉ sttSupported) :
    sttAdapterFor s = none := by
  unfold sttAdapterFor
  split
  all_goals simp_all [sttSupported]

theorem ttsAdapterFor_mem (s : String) (h : s ∈ ttsSupported) :
    ∃ a, ttsAdapterFor s = some a := by
  simp only [ttsSupported, List.mem_cons, List.not_mem_nil, or_false] at h
  rcases h with rfl | rfl <;> exact ⟨_, rfl⟩

theorem ttsAdapterFor_not_mem (s : String) (h : s ∉ ttsSupported) :
    ttsAdapterFor s = none := by
  unfold ttsAdapterFor
  split
  all_goals simp_all [ttsSupported]

theorem resolveLLMAdapter_spec (p : String) :
    (jsLower p ∈ llmSupported → ∃ a, resolveLLMAdapter p = Except.ok a) ∧
    (jsLower p ∉ llmSupported →
      resolveLLMAdapter p = Except.error ("Unsupported LLM provider: " ++ p)) := by
  constructor
  · intro h
    obtain ⟨a, ha⟩ := llmAdapterFor_mem _ h
    exact ⟨a, by unfold resolveLLMAdapter; rw [ha]⟩
  · intro h
    unfold resolveLLMAdapter
    rw [llmAdapterFor_not_mem _ h]

theorem resolveSTTAdapter_spec (p : String) :
    (jsLower p ∈ sttSupported → ∃ a, resolveSTTAdapter p = Except.ok a) ∧
    (jsLower p ∉ sttSupported →
      resolveSTTAdapter p = Except.error ("Unsupported STT provider: " ++ p)) := by
  constructor
  · intro h
    obtain ⟨a, ha⟩ := sttAdapterFor_mem _ h
    exact ⟨a, by unfold resolveSTTAdapter; rw [ha]⟩
  · intro h
    unfold resolveSTTAdapter
    rw [sttAdapterFor_not_mem _ h]

theorem resolveTTSAdapter_spec (p : String) :
    (jsLower p ∈ ttsSupported → ∃ a, resolveTTSAdapter p = Except.ok a) ∧
    (jsLower p ∉ ttsSupported →
      resolveTTSAdapter p = Except.error ("Unsupported TTS provider: " ++ p)) := by
  constructor
  · intro h
    obtain ⟨a, ha⟩ := ttsAdapterFor_mem _ h
    exact ⟨a, by unfold resolveTTSAdapter; rw [ha]⟩
  · intro h
    unfold resolveTTSAdapter
    rw [ttsAdapterFor_not_mem _ h]

/-- C8: for every request, each capability dispatcher (`callLLM`,
`callSTT`, `callTTS`) resolves an adapter function when the lowercased
effective provider id is supported, and otherwise fails with an
unsupported-provider error naming that provider, the error being thrown
before any vendor call. -/
theorem dispatcher_resolution (reqL : LLMRequest) (reqS : STTRequest)
    (reqT : TTSRequest) :
    ((jsLower (jsOrString reqL.provider "openai") ∈ llmSupported →
        ∃ a, callLLMDispatch reqL = Except.ok a) ∧
     (jsLower (jsOrString reqL.provider "openai") ∉ llmSupported →
        callLLMDispatch reqL = Except.error
          ("Unsupported LLM provider: " ++ jsOrString reqL.provider "openai"))) ∧
    ((jsLower (jsOrString reqS.provider "whisper") ∈ sttSupported →
        ∃ a, callSTTDispatch reqS = Except.ok a) ∧
     (jsLower (jsOrString reqS.provider "whisper") ∉ sttSupported →
        callSTTDispatch reqS = Except.error
          ("Unsupported STT provider: " ++ jsOrString reqS.provider "whisper"))) ∧
    ((jsLower (jsOrString reqT.provider "elevenlabs") ∈ ttsSupported →
        ∃ a, callTTSDispatch reqT = Except.ok a) ∧
     (jsLower (jsOrString reqT.provider "elevenlabs") ∉ ttsSupported →
        callTTSDispatch reqT = Except.error
          ("Unsupported TTS provider: " ++ jsOrString reqT.provider "elevenlabs"))) :=
  ⟨resolveLLMAdapter_spec _, resolveSTTAdapter_spec _, resolveTTSAdapter_spec _⟩

/-- Witness for C8: "MISTRAL", "Deepgram" and "Hume" resolve adapters;
"gemini", "assembly" and "polly" fail with the naming error. -/
theorem dispatcher_resolution_witness :
    (∃ a, callLLMDispatch mistralCasedRequest = Except.ok a) ∧
    callLLMDispatch geminiRequest =
      Except.error ("Unsupported LLM provider: " ++ "gemini") ∧
    (∃ a, callSTTDispatch deepgramCasedRequest = Except.ok a) ∧
    callSTTDispatch assemblyRequest =
      Except.error ("Unsupported STT provider: " ++ "assembly") ∧
    (∃ a, callTTSDispatch humeCasedRequest = Except.ok a) ∧
    callTTSDispatch pollyRequest =
      Except.error ("Unsupported TTS provider: " ++ "polly") :=
  ⟨(dispatcher_resolution mistralCasedRequest deepgramCasedRequest humeCasedRequest).1.1
      (by decide),
   (dispatcher_resolution geminiRequest assemblyRequest pollyRequest).1.2 (by decide),
   (dispatcher_resolution mistralCasedRequest deepgramCasedRequest humeCasedRequest).2.1.1
      (by decide),
   (dispatcher_resolution geminiRequest assemblyRequest pollyRequest).2.1.2 (by decide),
   (dispatcher_resolution mistralCasedRequest deepgramCasedRequest humeCasedRequest).2.2.1
      (by decide),
   (dispatcher_resolution geminiRequest assemblyRequest pollyRequest).2.2.2 (by decide)⟩

/-! ## C9: conversations.delete archives (helpers, then the claim) -/

theorem find?_map_archive (l : List Conversation) (cid : Nat) (c : Conversation)
    (h : l.find? (fun x => x.id == cid) = some c) :
    (l.map (fun x => if x.id == cid then { x with isArchived := true } else x)).find?
        (fun x => x.id == cid) = some { c with isArchived := true } := by
  induction l with
  | nil => simp at h
  | cons hd tl ih =>
    rw [List.map_cons]
    by_cases hh : (hd.id == cid) = true
    · rw [List.find?_cons_of_pos (p := fun (x : Conversation) => x.id == cid) tl hh] at h
      injection h with h
      subst h
      rw [if_pos hh]
      exact List.find?_cons_of_pos (p := fun (x : Conversation) => x.id == cid) _ hh
    · rw [List.find?_cons_of_neg (p := fun (x : Conversation) => x.id == cid) tl hh] at h
      rw [if_neg hh, List.find?_cons_of_neg (p := fun (x : Conversation) => x.id == cid) _ hh]
      exact ih h

theorem getUserConversations_archived_excluded (db : Db) (userId cid : Nat) :
    ∀ c' ∈ getUserConversations (deleteConversation db cid) userId, c'.id ≠ cid := by
  intro c' hc'
  unfold getUserConversations deleteConversation at hc'
  obtain ⟨hmem, hfilt⟩ := List.mem_filter.mp hc'
  obtain ⟨x, _, hfx⟩ := List.mem_map.mp hmem
  by_cases hid : (x.id == cid) = true
  · rw [if_pos hid] at hfx
    rw [← hfx] at hfilt
    simp at hfilt
  · rw [if_neg hid] at hfx
    rw [← hfx]
    simpa using hid

/-- C9: a successful conversations.delete archives rather than deletes —
the row is still found by id with `isArchived` set and every other field
unchanged, it vanishes from the owner's listing, no row is removed, and
the other tables are untouched. -/
theorem conversationsDelete_archives (db : Db) (userId cid : Nat) (c : Conversation)
    (h : getConversationById db cid = some c) :
    getConversationById (deleteConversation db cid) cid =
      some { c with isArchived := true } ∧
    (∀ c' ∈ getUserConversations (deleteConversation db cid) userId, c'.id ≠ cid) ∧
    (deleteConversation db cid).conversations.length = db.conversations.length ∧
    (deleteConversation db cid).messages = db.messages ∧
    (deleteConversation db cid).usage = db.usage :=
  ⟨find?_map_archive db.conversations cid c h,
   getUserConversations_archived_excluded db userId cid,
   by simp [deleteConversation], rfl, rfl⟩

/-- Witness for C9 on the one-conversation database: after the delete,
the row is still found with the archived flag set and the owner's
listing no longer contains it. -/
theorem conversationsDelete_archives_witness :
    getConversationById (deleteConversation sampleDb 1) 1 =
      some { sampleConversation with isArchived := true } ∧
    (∀ c' ∈ getUserConversations (deleteConversation sampleDb 1) 1, c'.id ≠ 1) ∧
    (deleteConversation sampleDb 1).conversations.length =
      sampleDb.conversations.length := by
  obtain ⟨h1, h2, h3, -, -⟩ := conversationsDelete_archives sampleDb 1 1
    sampleConversation rfl
  exact ⟨h1, h2, h3⟩

/-! ## C10: case-insensitive dispatch vs case-sensitive credentials -/

theorem resolveLLMAdapter_toOption (p : String) :
    (resolveLLMAdapter p).toOption = llmAdapterFor (jsLower p) := by
  unfold resolveLLMAdapter
  cases h : llmAdapterFor (jsLower p) <;> simp [h, Except.toOption]

theorem resolveSTTAdapter_toOption (p : String) :
    (resolveSTTAdapter p).toOption = sttAdapterFor (jsLower p) := by
  unfold resolveSTTAdapter
  cases h : sttAdapterFor (jsLower p) <;> simp [h, Except.toOption]

theorem resolveTTSAdapter_toOption (p : String) :
    (resolveTTSAdapter p).toOption = ttsAdapterFor (jsLower p) := by
  unfold resolveTTSAdapter
  cases h : ttsAdapterFor (jsLower p) <;> simp [h, Except.toOption]

/-- C10: every dispatcher selects the same adapter for a provider id as
for its lowercase form, while `chat.send`'s active-credential lookup is
an exact string match — so a conversation whose provider id "Anthropic"
differs from the stored credential id "anthropic" only in case
dispatches to the Anthropic adapter with no credential attached. -/
theorem dispatch_case_insensitive_credentials_exact :
    (∀ p, (resolveLLMAdapter p).toOption = (resolveLLMAdapter (jsLower p)).toOption) ∧
    (∀ p, (resolveSTTAdapter p).toOption = (resolveSTTAdapter (jsLower p)).toOption) ∧
    (∀ p, (resolveTTSAdapter p).toOption = (resolveTTSAdapter (jsLower p)).toOption) ∧
    findActiveConfig [anthropicCredential] "anthropic" = some anthropicCredential ∧
    findActiveConfig [anthropicCredential] "Anthropic" = none ∧
    (chatSendRequest anthropicCasedConversation [] [anthropicCredential] "hi").apiKey =
      none ∧
    (resolveLLMAdapter "Anthropic").toOption = some LLMAdapter.anthropic := by
  refine ⟨fun p => ?_, fun p => ?_, fun p => ?_, by decide, by decide, by decide, by decide⟩
  · rw [resolveLLMAdapter_toOption, resolveLLMAdapter_toOption, jsLower_idem]
  · rw [resolveSTTAdapter_toOption, resolveSTTAdapter_toOption, jsLower_idem]
  · rw [resolveTTSAdapter_toOption, resolveTTSAdapter_toOption, jsLower_idem]

end VoiceHub
